import Mathlib

/-
Verification of the kdash-monitor multi-cluster Kubernetes monitoring
dashboard.  The Go source is shallowly embedded: float64 quantities are
modelled as exact rationals (all comparisons and literals exercised here
are exactly representable in binary64, so the rational model agrees with
the float semantics at every boundary that matters), Go `int` values as
integers, `time.Duration` as an integer count of nanoseconds, and
fallible calls as `Except String`.
-/

namespace KDash

/-!  Health classification, from `determineClusterStatus` in
     internal/services (helper used by the API handlers).  -/

/-- Embedding of `determineClusterStatus(cpuUsage, memUsage float64, pending, failed int) string`:
Critical if cpu > 95 or mem > 95 or failed > 0, else Warning if cpu > 80 or
mem > 80 or pending > 5, else Healthy. -/
def determineClusterStatus (cpuUsage memUsage : ℚ) (pending failed : ℤ) : String :=
  if cpuUsage > 95 ∨ memUsage > 95 ∨ failed > 0 then "Critical"
  else if cpuUsage > 80 ∨ memUsage > 80 ∨ pending > 5 then "Warning"
  else "Healthy"

/-!  Age formatting, from `formatAge` in internal/services/kubernetes.go.
     The Go function receives a creation time and first computes
     `duration := time.Since(t)`; we embed it directly on that duration,
     as a number of nanoseconds (`time.Duration` is an int64 nanosecond
     count; `Hours()`, `Minutes()`, `Seconds()` divide by the respective
     unit, and `int(...)` truncates toward zero, which is `Int.tdiv`). -/

/-- Embedding of `formatAge`: `duration.Hours() > 24` selects the days
bucket, else `duration.Hours() >= 1` the hours bucket, else
`duration.Minutes() >= 1` the minutes bucket, else seconds.  The argument
is the duration in nanoseconds. -/
def formatAge (d : ℤ) : String :=
  if 86400000000000 < d then
    toString (d.tdiv 86400000000000) ++ "d"
  else if 3600000000000 ≤ d then
    toString (d.tdiv 3600000000000) ++ "h"
  else if 60000000000 ≤ d then
    toString (d.tdiv 60000000000) ++ "m"
  else
    toString (d.tdiv 1000000000) ++ "s"

/-- Bucketing rule as the specification states it, for comparison with
`formatAge`: d < 60s seconds, 60s ≤ d < 1h minutes, 1h ≤ d < 24h hours,
d ≥ 24h days. -/
def formatAgeClaimed (d : ℤ) : String :=
  if d < 60000000000 then
    toString (d.tdiv 1000000000) ++ "s"
  else if d < 3600000000000 then
    toString (d.tdiv 60000000000) ++ "m"
  else if d < 86400000000000 then
    toString (d.tdiv 3600000000000) ++ "h"
  else
    toString (d.tdiv 86400000000000) ++ "d"

/-- Bucketing rule with the boundary the code actually implements: the
hours bucket is 1h ≤ d ≤ 24h and the days bucket is d > 24h; the other
buckets are as the specification states them. -/
def formatAgeAmendedSpec (d : ℤ) : String :=
  if d < 60000000000 then
    toString (d.tdiv 1000000000) ++ "s"
  else if d < 3600000000000 then
    toString (d.tdiv 60000000000) ++ "m"
  else if d ≤ 86400000000000 then
    toString (d.tdiv 3600000000000) ++ "h"
  else
    toString (d.tdiv 86400000000000) ++ "d"

/-!  Node role derivation, from `getNodeRoles` in
     internal/services/kubernetes.go.  A node's labels are modelled as the
     list of label keys (the map values are not consulted). -/

/-- Body of the loop in `getNodeRoles`: a label key contributes
`strings.TrimPrefix(label, "node-role.kubernetes.io/")` when it carries
the role prefix and the remainder is nonempty, per the `role != ""`
guard in the source. -/
def roleSuffix (label : String) : Option String :=
  if "node-role.kubernetes.io/".data.isPrefixOf label.data then
    let role := (label.data.drop 24).asString
    if role = "" then none else some role
  else none

/-- Embedding of `getNodeRoles`: collect the role suffixes of all label
keys; if none were found, default to `["worker"]`. -/
def getNodeRoles (labels : List String) : List String :=
  if labels.filterMap roleSuffix = [] then ["worker"]
  else labels.filterMap roleSuffix

/-- Suffix collection as the claim words it: every role-prefixed label
key contributes its suffix, the empty suffix included. -/
def claimRoleSuffixes (labels : List String) : List String :=
  labels.filterMap fun label =>
    if "node-role.kubernetes.io/".data.isPrefixOf label.data then
      some ((label.data.drop 24).asString)
    else none

/-!  Pod summary, from `GetPodSummary` in internal/services/kubernetes.go.
     The function lists the pods of the cluster and classifies each by its
     `Status` string (the pod phase); only that list of phase strings is
     relevant, so the embedding takes it as input. -/

/-- Embedding of the counting loop of `GetPodSummary`: one pass over the
pod phases, incrementing `running`/`pending`/`failed` on the matching
switch case and `total` unconditionally. -/
def GetPodSummary : List String → ℤ × ℤ × ℤ × ℤ
  | [] => (0, 0, 0, 0)
  | st :: rest =>
    (if st = "Running" then (GetPodSummary rest).1 + 1 else (GetPodSummary rest).1,
     if st = "Pending" then (GetPodSummary rest).2.1 + 1 else (GetPodSummary rest).2.1,
     if st = "Failed" then (GetPodSummary rest).2.2.1 + 1 else (GetPodSummary rest).2.2.1,
     (GetPodSummary rest).2.2.2 + 1)

/-!  Scalar extraction, from `extractFirstValue` in
     internal/services/prometheus.go.  JSON `interface{}` values
     unmarshalled from the Prometheus response are numbers, strings,
     booleans or null. -/

/-- Dynamic JSON value as produced by `encoding/json` into `interface{}`. -/
inductive GoJSON where
  | num (x : ℚ)
  | str (s : String)
  | boolean (b : Bool)
  | null
deriving DecidableEq, Repr

/-- One entry of `PrometheusResult.Data.Result`. -/
structure PromSample where
  metric : List (String × String) := []
  value : List GoJSON := []
deriving DecidableEq, Repr

/-- Embedding of the `PrometheusResult` struct (the `Data` struct is
inlined as the two fields `resultType` and `result`). -/
structure PrometheusResult where
  status : String := ""
  resultType : String := ""
  result : List PromSample := []
deriving DecidableEq, Repr

/-- Model of the library call `fmt.Sscanf(valueStr, "%f", &value)` on the
decimal forms Prometheus emits: an optional sign, then digits with at most
one decimal point, at least one digit required; trailing input is ignored,
as `Sscanf` stops at the end of the numeric token.  Exponent and special
IEEE forms are outside the inputs the claims exercise and are not
modelled. -/
def parseFloatQ (s : String) : Option ℚ :=
  let cs := s.data
  let signed : ℚ × List Char :=
    match cs with
    | '-' :: rest => (-1, rest)
    | '+' :: rest => (1, rest)
    | _ => (1, cs)
  let intDigits := signed.2.takeWhile Char.isDigit
  let afterInt := signed.2.dropWhile Char.isDigit
  let fracDigits :=
    match afterInt with
    | '.' :: r => r.takeWhile Char.isDigit
    | _ => []
  if intDigits = [] ∧ fracDigits = [] then none
  else
    let ip : ℕ := intDigits.foldl (fun a c => 10 * a + (c.toNat - 48)) 0
    let fp : ℕ := fracDigits.foldl (fun a c => 10 * a + (c.toNat - 48)) 0
    some (signed.1 * ((ip : ℚ) + (fp : ℚ) / (10 : ℚ) ^ fracDigits.length))

/-- Embedding of `extractFirstValue`: empty result set yields 0 with no
error; a first sample whose value array has fewer than two elements, whose
second element is not a string, or whose string does not parse as a number
yields an error; otherwise the parsed number. -/
def extractFirstValue (result : PrometheusResult) : Except String ℚ :=
  match result.result with
  | [] => .ok 0
  | first :: _ =>
    if first.value.length < 2 then .error "unexpected result format"
    else
      match first.value[1]? with
      | some (GoJSON.str valueStr) =>
        match parseFloatQ valueStr with
        | some v => .ok v
        | none => .error "failed to parse value"
      | _ => .error "unexpected value type"

/-!  Data model, from internal/models/cluster.go.  Timestamps are integer
     instants (nanoseconds since an arbitrary epoch); zero values mirror
     the Go zero-valued struct fields before the store assigns them. -/

/-- Embedding of `models.MetricSnapshot`. -/
structure MetricSnapshot where
  id : ℕ := 0
  cluster : String := ""
  cpuUsage : ℚ := 0
  memoryUsage : ℚ := 0
  podCount : ℤ := 0
  nodeCount : ℤ := 0
  timestamp : ℤ := 0
deriving DecidableEq, Repr

/-- Message of an alert created by `checkAndCreateAlerts`; each
constructor stands for one of the five `fmt.Sprintf` templates of
cmd/server/main.go, carrying the formatted argument. -/
inductive AlertMessage where
  | cpuCritical (pct : ℚ)
  | cpuElevated (pct : ℚ)
  | memCritical (pct : ℚ)
  | memElevated (pct : ℚ)
  | podsFailed (n : ℤ)
deriving DecidableEq, Repr

/-- Embedding of `models.Alert`. -/
structure Alert where
  id : ℕ := 0
  cluster : String := ""
  severity : String := ""
  message : AlertMessage
  timestamp : ℤ := 0
  resolved : Bool := false
deriving DecidableEq, Repr

/-!  Snapshot and alert store, from internal/store (MetricsStore over
     SQLite).  The two tables are modelled as lists of rows; `now` is
     passed explicitly where the Go code calls `time.Now()`.  Query
     results ordered by SQL `ORDER BY` are modelled with `List.mergeSort`
     over the filtered rows. -/

/-- Embedding of `GetSnapshots`: rows of the cluster with
`timestamp > now - since`, ordered ascending by timestamp. -/
def GetSnapshots (db : List MetricSnapshot) (now : ℤ) (cluster : String)
    (since : ℤ) : List MetricSnapshot :=
  List.mergeSort
    (db.filter fun s => s.cluster = cluster ∧ now - since < s.timestamp)
    (fun a b => a.timestamp ≤ b.timestamp)

/-- Embedding of `CleanupOldSnapshots`: the table after
`DELETE WHERE timestamp < now - olderThan`, that is the rows whose
timestamp is not strictly below the cutoff. -/
def CleanupOldSnapshots (db : List MetricSnapshot) (now : ℤ)
    (olderThan : ℤ) : List MetricSnapshot :=
  db.filter fun s => ¬ s.timestamp < now - olderThan

/-- Embedding of `GetActiveAlerts`: rows with `resolved = false`, ordered
descending by timestamp. -/
def GetActiveAlerts (db : List Alert) : List Alert :=
  List.mergeSort
    (db.filter fun a => a.resolved = false)
    (fun a b => b.timestamp ≤ a.timestamp)

/-- Table transformation of `ResolveAlert`:
`UPDATE alerts SET resolved = true WHERE id = ?` sets the flag on every
matching row and leaves the others untouched. -/
def resolveUpdate (db : List Alert) (id : ℕ) : List Alert :=
  db.map fun a => if a.id = id then { a with resolved := true } else a

/-- Embedding of `ResolveAlert`: gorm reports no error when the UPDATE
matches zero rows, so absent a storage failure the call always succeeds,
returning the updated table. -/
def ResolveAlert (db : List Alert) (id : ℕ) : Except String (List Alert) :=
  .ok (resolveUpdate db id)

/-!  Collector, from cmd/server/main.go.  One collection cycle walks the
     configured clusters; the outcome of each per-cluster network call is
     supplied by an environment keyed on the cluster name, so that claims
     about partial failures quantify over all outcome combinations. -/

/-- Embedding of `models.ClusterConfig`. -/
structure ClusterConfig where
  name : String := ""
  displayName : String := ""
  context : String := ""
  prometheusURL : String := ""
  enabled : Bool := false
deriving DecidableEq, Repr

/-- Outcomes of the per-cluster calls a collection cycle performs:
`GetNodeCount`, `GetPodSummary` (running, pending, failed, total),
`CheckConnectivity` on Prometheus, `GetCPUUsage`, `GetMemoryUsage`. -/
structure ClusterEnv where
  nodeCount : Except String ℤ
  podSummary : Except String (ℤ × ℤ × ℤ × ℤ)
  promConnected : Bool
  cpuUsage : Except String ℚ
  memUsage : Except String ℚ

/-- Embedding of `checkAndCreateAlerts`, returning the alerts it saves in
order: a Critical CPU alert above 95 else a Warning one above 80, the
same for memory, and a Warning alert when any pod is failed. -/
def checkAndCreateAlerts (cluster : String) (cpuUsage memUsage : ℚ)
    (failedPods : ℤ) : List Alert :=
  (if cpuUsage > 95 then
    [{ cluster := cluster, severity := "Critical", message := .cpuCritical cpuUsage }]
   else if cpuUsage > 80 then
    [{ cluster := cluster, severity := "Warning", message := .cpuElevated cpuUsage }]
   else []) ++
  (if memUsage > 95 then
    [{ cluster := cluster, severity := "Critical", message := .memCritical memUsage }]
   else if memUsage > 80 then
    [{ cluster := cluster, severity := "Warning", message := .memElevated memUsage }]
   else []) ++
  (if failedPods > 0 then
    [{ cluster := cluster, severity := "Warning", message := .podsFailed failedPods }]
   else [])

/-- Per-cluster body of the `collectMetrics` loop: the snapshot starts
zero-valued with only the cluster name set; each field is filled only when
its call succeeds, CPU and memory only when Prometheus connectivity was
confirmed first; the snapshot is saved and the thresholds are checked with
the cycle-local `failed` count. -/
def collectCluster (env : String → ClusterEnv) (cfg : ClusterConfig) :
    MetricSnapshot × List Alert :=
  let e := env cfg.name
  let nodeCount : ℤ := match e.nodeCount with | .ok n => n | .error _ => 0
  let podPart : ℤ × ℤ :=
    match e.podSummary with
    | .ok (_, _, failedPods, podCount) => (podCount, failedPods)
    | .error _ => (0, 0)
  let cpu : ℚ :=
    if e.promConnected then match e.cpuUsage with | .ok v => v | .error _ => 0
    else 0
  let mem : ℚ :=
    if e.promConnected then match e.memUsage with | .ok v => v | .error _ => 0
    else 0
  let snapshot : MetricSnapshot :=
    { cluster := cfg.name, cpuUsage := cpu, memoryUsage := mem,
      podCount := podPart.1, nodeCount := nodeCount }
  (snapshot, checkAndCreateAlerts cfg.name cpu mem podPart.2)

/-- Embedding of `collectMetrics`: walk the configured clusters in order,
skip the disabled ones, and for each enabled one produce its snapshot
write and its alert writes. -/
def collectMetrics (env : String → ClusterEnv) :
    List ClusterConfig → List (MetricSnapshot × List Alert)
  | [] => []
  | cfg :: rest =>
    if cfg.enabled then collectCluster env cfg :: collectMetrics env rest
    else collectMetrics env rest

/-!  Startup, from `main` in cmd/server/main.go.  The decision structure
     of `main` up to the point where the server and collector run:
     `os.MkdirAll` failure is `log.Fatalf`; `NewKubernetesService` failure
     (configuration load or client initialization) is logged as a warning
     and the process continues with a nil Kubernetes service;
     `NewMetricsStore` failure is `log.Fatalf`. -/

/-- Outcome of process startup: terminated by `log.Fatalf` at a given
stage, or running, with or without a usable Kubernetes service. -/
inductive StartupResult where
  | fatal (stage : String)
  | running (k8sAvailable : Bool)
deriving DecidableEq, Repr

/-- Embedding of the startup decision sequence of `main`. -/
def startup (mkdirOk configOk storeOk : Bool) : StartupResult :=
  if ¬ mkdirOk then .fatal "mkdir"
  else if ¬ storeOk then .fatal "store"
  else .running configOk

/-- Predicate: the startup outcome terminated the process. -/
def isFatalStartup : StartupResult → Bool
  | .fatal _ => true
  | .running _ => false

/-- Predicate: an alert created by the CPU threshold branch. -/
def isCpuAlert (a : Alert) : Bool :=
  match a.message with
  | .cpuCritical _ => true
  | .cpuElevated _ => true
  | _ => false

/-- Predicate: an alert created by the memory threshold branch. -/
def isMemAlert (a : Alert) : Bool :=
  match a.message with
  | .memCritical _ => true
  | .memElevated _ => true
  | _ => false

/-- Predicate: an alert created by the failed-pod branch. -/
def isFailedPodAlert (a : Alert) : Bool :=
  match a.message with
  | .podsFailed _ => true
  | _ => false

/-!  Theorems.  -/

/-- C1: the health classification function is a pure total function of
(cpuPct, memPct, pendingPods, failedPods) evaluated in fixed priority
order: Critical iff cpuPct > 95 or memPct > 95 or failedPods > 0,
otherwise Warning iff cpuPct > 80 or memPct > 80 or pendingPods > 5,
otherwise Healthy; with the five concrete evaluations the claim lists. -/
theorem c1_health_classifier :
    (∀ (cpu mem : ℚ) (pending failed : ℤ),
      (determineClusterStatus cpu mem pending failed = "Critical" ↔
        (cpu > 95 ∨ mem > 95 ∨ failed > 0)) ∧
      (determineClusterStatus cpu mem pending failed = "Warning" ↔
        (¬(cpu > 95 ∨ mem > 95 ∨ failed > 0) ∧ (cpu > 80 ∨ mem > 80 ∨ pending > 5))) ∧
      (determineClusterStatus cpu mem pending failed = "Healthy" ↔
        (¬(cpu > 95 ∨ mem > 95 ∨ failed > 0) ∧ ¬(cpu > 80 ∨ mem > 80 ∨ pending > 5)))) ∧
    determineClusterStatus 96 0 0 0 = "Critical" ∧
    determineClusterStatus 85 0 0 0 = "Warning" ∧
    determineClusterStatus 50 50 0 0 = "Healthy" ∧
    determineClusterStatus 10 10 0 1 = "Critical" ∧
    determineClusterStatus 10 10 6 0 = "Warning" := by
  refine ⟨fun cpu mem pending failed => ?_, by decide, by decide, by decide,
    by decide, by decide⟩
  unfold determineClusterStatus
  split_ifs with h1 h2
  · exact ⟨iff_of_true rfl h1,
      iff_of_false (by decide) fun hc => hc.1 h1,
      iff_of_false (by decide) fun hc => hc.1 h1⟩
  · exact ⟨iff_of_false (by decide) h1,
      iff_of_true rfl ⟨h1, h2⟩,
      iff_of_false (by decide) fun hc => hc.2 h2⟩
  · exact ⟨iff_of_false (by decide) h1,
      iff_of_false (by decide) fun hc => h2 hc.2,
      iff_of_true rfl ⟨h1, h2⟩⟩

/-- C2: on every collection cycle the collector produces exactly one
snapshot write for every enabled cluster, in configuration order, with
disabled clusters skipped; a failed node-count call leaves nodeCount 0, a
failed pod-summary call leaves podCount 0, unreachable Prometheus leaves
the percentages 0, and each cluster's snapshot depends only on that
cluster's own call outcomes, so one cluster's failures cannot affect
another cluster's write in the same cycle. -/
theorem c2_collector_partial_failure_isolation :
    (∀ (env : String → ClusterEnv) (configs : List ClusterConfig),
      (collectMetrics env configs).map (fun r => r.1.cluster) =
        (configs.filter fun c => c.enabled).map (fun c => c.name)) ∧
    (∀ (env : String → ClusterEnv) (cfg : ClusterConfig) (msg : String),
      (env cfg.name).nodeCount = .error msg →
      (collectCluster env cfg).1.nodeCount = 0) ∧
    (∀ (env : String → ClusterEnv) (cfg : ClusterConfig) (msg : String),
      (env cfg.name).podSummary = .error msg →
      (collectCluster env cfg).1.podCount = 0) ∧
    (∀ (env : String → ClusterEnv) (cfg : ClusterConfig),
      (env cfg.name).promConnected = false →
      (collectCluster env cfg).1.cpuUsage = 0 ∧
        (collectCluster env cfg).1.memoryUsage = 0) ∧
    (∀ (env env2 : String → ClusterEnv) (cfg : ClusterConfig),
      env cfg.name = env2 cfg.name →
      collectCluster env cfg = collectCluster env2 cfg) := by
  refine ⟨?_, ?_, ?_, ?_, ?_⟩
  · intro env configs
    induction configs with
    | nil => rfl
    | cons c rest ih =>
      by_cases hc : c.enabled <;> simp [collectMetrics, collectCluster, hc, ih]
  · intro env cfg msg h
    simp [collectCluster, h]
  · intro env cfg msg h
    simp [collectCluster, h]
  · intro env cfg h
    simp [collectCluster, h]
  · intro env env2 cfg h
    unfold collectCluster
    rw [h]

/-- C2 witness: in a cycle over enabled clusters "a" and "c" with a
disabled "b" in between, both "a" and "c" receive exactly one snapshot
write even though every call for "a" fails, and a snapshot whose
node-count, pod-summary and metrics calls all fail keeps all fields
zero. -/
theorem c2_collector_witness :
    ((collectMetrics
        (fun _ => ⟨.error "listing failed", .error "listing failed", false,
          .error "no data", .error "no data"⟩)
        [⟨"a", "A", "", "", true⟩, ⟨"b", "B", "", "", false⟩,
         ⟨"c", "C", "", "", true⟩]).map (fun r => r.1.cluster) = ["a", "c"]) ∧
    ((collectCluster
        (fun _ => ⟨.error "listing failed", .error "listing failed", false,
          .error "no data", .error "no data"⟩)
        ⟨"a", "A", "", "", true⟩).1.nodeCount = 0) ∧
    ((collectCluster
        (fun _ => ⟨.error "listing failed", .error "listing failed", false,
          .error "no data", .error "no data"⟩)
        ⟨"a", "A", "", "", true⟩).1.podCount = 0) ∧
    ((collectCluster
        (fun _ => ⟨.error "listing failed", .error "listing failed", false,
          .error "no data", .error "no data"⟩)
        ⟨"a", "A", "", "", true⟩).1.cpuUsage = 0) := by
  refine ⟨(c2_collector_partial_failure_isolation.1 _ _).trans rfl,
    c2_collector_partial_failure_isolation.2.1 _ _ "listing failed" rfl,
    c2_collector_partial_failure_isolation.2.2.1 _ _ "listing failed" rfl,
    (c2_collector_partial_failure_isolation.2.2.2.1 _ _ rfl).1⟩

/-- C3 counterexample: with the data directory fine and the metrics store
fine, a failed cluster-configuration load leaves the process running in
degraded mode, not terminated; and a metrics-store initialization failure
does terminate the process, so configuration failure is not the only
fatal startup failure either. -/
theorem c3_config_failure_counterexample :
    startup true false true = .running false ∧
    isFatalStartup (startup true false true) = false ∧
    startup true true false = .fatal "store" := by
  decide

/-- C3 amended: a malformed or missing cluster configuration at startup
is not fatal: `main` logs a warning and continues running with the
Kubernetes service absent; the startup failures that do terminate the
process are data-directory creation failure and metrics-store
initialization failure. -/
theorem c3_startup_fatality_amended :
    (∀ configOk storeOk : Bool,
      startup true configOk storeOk =
        if storeOk then .running configOk else .fatal "store") ∧
    (∀ mkdirOk configOk storeOk : Bool,
      isFatalStartup (startup mkdirOk configOk storeOk) =
        (!mkdirOk || !storeOk)) := by
  constructor <;> decide

/-- C4 counterexample: at a duration of exactly 24 hours
(86400000000000 ns) the code renders the hours label "24h", because its
days branch tests `duration.Hours() > 24` strictly, while the claimed
rule (d ≥ 24h yields a days label) renders "1d". -/
theorem c4_age_bucket_boundary_counterexample :
    formatAge 86400000000000 = "24h" ∧
    formatAgeClaimed 86400000000000 = "1d" ∧
    formatAge 86400000000000 ≠ formatAgeClaimed 86400000000000 := by
  refine ⟨by decide, by decide, ?_⟩
  intro h
  rw [show formatAge 86400000000000 = "24h" by decide,
    show formatAgeClaimed 86400000000000 = "1d" by decide] at h
  exact absurd h (by decide)

/-- C4 amended: the age-bucketing function is monotonic and exclusive
over four buckets with the days boundary strict: d < 60s yields the
seconds label, 60s ≤ d < 1h the minutes label, 1h ≤ d ≤ 24h the hours
label, and d > 24h the days label; 30s gives "30s", 15m gives "15m",
5h gives "5h" and 3 days gives "3d". -/
theorem c4_age_bucketing_amended :
    (∀ d : ℤ, formatAge d = formatAgeAmendedSpec d) ∧
    formatAge 30000000000 = "30s" ∧
    formatAge 900000000000 = "15m" ∧
    formatAge 18000000000000 = "5h" ∧
    formatAge 259200000000000 = "3d" := by
  refine ⟨fun d => ?_, by decide, by decide, by decide, by decide⟩
  simp only [formatAge, formatAgeAmendedSpec]
  split_ifs <;> first | rfl | omega

/-- Evaluation lemma: the sample value string "42.5" parses to 85/2. -/
theorem parseFloatQ_forty_two_point_five : parseFloatQ "42.5" = some (85 / 2) := by
  simp [parseFloatQ]
  norm_num

/-- C5: scalar extraction from a metrics query result: an empty result
set yields 0 with no error; a first sample whose value pair is malformed
(fewer than two elements, a non-string second element, or an unparsable
number string) yields an error; a well-formed pair such as
[epoch, "42.5"] yields 42.5. -/
theorem c5_extract_first_value :
    (∀ r : PrometheusResult, r.result = [] → extractFirstValue r = .ok 0) ∧
    (∀ (r : PrometheusResult) (first : PromSample) (rest : List PromSample),
      r.result = first :: rest → first.value.length < 2 →
      extractFirstValue r = .error "unexpected result format") ∧
    (∀ (r : PrometheusResult) (first : PromSample) (rest : List PromSample),
      r.result = first :: rest → 2 ≤ first.value.length →
      (∀ s, first.value[1]? ≠ some (GoJSON.str s)) →
      extractFirstValue r = .error "unexpected value type") ∧
    (∀ (r : PrometheusResult) (first : PromSample) (rest : List PromSample)
      (s : String),
      r.result = first :: rest → 2 ≤ first.value.length →
      first.value[1]? = some (GoJSON.str s) → parseFloatQ s = none →
      extractFirstValue r = .error "failed to parse value") ∧
    (∀ (r : PrometheusResult) (first : PromSample) (rest : List PromSample)
      (epoch : GoJSON),
      r.result = first :: rest → first.value = [epoch, GoJSON.str "42.5"] →
      extractFirstValue r = .ok (85 / 2)) := by
  refine ⟨?_, ?_, ?_, ?_, ?_⟩
  · intro r hr
    simp [extractFirstValue, hr]
  · intro r first rest hr hlen
    simp [extractFirstValue, hr, hlen]
  · intro r first rest hr hlen hstr
    simp only [extractFirstValue, hr]
    rw [if_neg (by omega)]
  · intro r first rest s hr hlen hv hparse
    simp only [extractFirstValue, hr]
    rw [if_neg (by omega), hv]
    simp [hparse]
  · intro r first rest epoch hr hval
    simp only [extractFirstValue, hr, hval]
    norm_num [parseFloatQ_forty_two_point_five]

/-- C5 witness: the five cases at concrete inputs: empty result set,
one-element value pair, numeric (non-string) second element, unparsable
string, and the well-formed pair [epoch, "42.5"]. -/
theorem c5_extract_first_value_witness :
    extractFirstValue { result := [] } = .ok 0 ∧
    extractFirstValue
      { result := [{ value := [GoJSON.num 1234567890] }] } =
      .error "unexpected result format" ∧
    extractFirstValue
      { result := [{ value := [GoJSON.num 1234567890, GoJSON.num 2] }] } =
      .error "unexpected value type" ∧
    extractFirstValue
      { result := [{ value := [GoJSON.num 1234567890, GoJSON.str "abc"] }] } =
      .error "failed to parse value" ∧
    extractFirstValue
      { result := [{ value := [GoJSON.num 1234567890, GoJSON.str "42.5"] }] } =
      .ok (85 / 2) := by
  refine ⟨c5_extract_first_value.1 _ rfl,
    c5_extract_first_value.2.1 _ _ [] rfl (by decide),
    c5_extract_first_value.2.2.1 _ _ [] rfl (by decide) ?_,
    c5_extract_first_value.2.2.2.1 _ _ [] "abc" rfl (by decide) rfl ?_,
    c5_extract_first_value.2.2.2.2 _ _ [] (GoJSON.num 1234567890) rfl rfl⟩
  · intro s h
    simp at h
  · simp [parseFloatQ]

/-- C6 counterexample: a node whose single label key is exactly the role
prefix "node-role.kubernetes.io/" has suffix set consisting of the empty
string, which is nonempty, so the claim requires that set as the result;
the code discards the empty suffix (its `role != ""` guard) and returns
the worker default instead. -/
theorem c6_empty_suffix_counterexample :
    claimRoleSuffixes ["node-role.kubernetes.io/"] = [""] ∧
    getNodeRoles ["node-role.kubernetes.io/"] = ["worker"] ∧
    getNodeRoles ["node-role.kubernetes.io/"] ≠
      claimRoleSuffixes ["node-role.kubernetes.io/"] := by
  refine ⟨by decide, by decide, ?_⟩
  intro h
  rw [show claimRoleSuffixes ["node-role.kubernetes.io/"] = [""] by decide,
    show getNodeRoles ["node-role.kubernetes.io/"] = ["worker"] by decide] at h
  exact absurd h (by decide)

/-- C6 amended: node role derivation returns the set of nonempty
role-prefix label suffixes; if that set is empty the result is exactly
the single role "worker", the result is never empty, and once any role is
found "worker" is not implicitly added. -/
theorem c6_node_roles_amended :
    (∀ labels : List String, getNodeRoles labels ≠ []) ∧
    (∀ labels : List String,
      labels.filterMap roleSuffix = [] → getNodeRoles labels = ["worker"]) ∧
    (∀ labels : List String,
      labels.filterMap roleSuffix ≠ [] →
      getNodeRoles labels = labels.filterMap roleSuffix) ∧
    (∀ labels : List String,
      labels.filterMap roleSuffix ≠ [] →
      "worker" ∉ labels.filterMap roleSuffix →
      "worker" ∉ getNodeRoles labels) ∧
    getNodeRoles ["node-role.kubernetes.io/control-plane"] =
      ["control-plane"] := by
  refine ⟨?_, ?_, ?_, ?_, by decide⟩
  · intro labels
    unfold getNodeRoles
    split_ifs with h
    · simp
    · exact h
  · intro labels h
    unfold getNodeRoles
    rw [if_pos h]
  · intro labels h
    unfold getNodeRoles
    rw [if_neg h]
  · intro labels h hw
    unfold getNodeRoles
    rw [if_neg h]
    exact hw

/-- C6 witness: a node with no role-prefixed label yields exactly
["worker"], and a node with a control-plane role label yields exactly
["control-plane"], with no implicit "worker". -/
theorem c6_node_roles_witness :
    getNodeRoles ["kubernetes.io/hostname"] = ["worker"] ∧
    getNodeRoles ["node-role.kubernetes.io/control-plane"] =
      ["control-plane"] ∧
    "worker" ∉ getNodeRoles ["node-role.kubernetes.io/control-plane"] := by
  refine ⟨c6_node_roles_amended.2.1 _ (by decide), ?_, ?_⟩
  · rw [c6_node_roles_amended.2.2.1 _ (by decide)]
    decide
  · exact c6_node_roles_amended.2.2.2.1 _ (by decide) (by decide)

/-- C7: the range query returns, for the requested cluster, exactly the
stored snapshots strictly newer than now minus the duration, ordered
ascending by timestamp; pruning retains exactly the snapshots whose
timestamp is at or after now minus the retention window, deleting
precisely the strictly older ones. -/
theorem c7_snapshot_range_and_prune :
    (∀ (db : List MetricSnapshot) (now : ℤ) (cluster : String) (since : ℤ)
      (s : MetricSnapshot),
      s ∈ GetSnapshots db now cluster since ↔
        s ∈ db ∧ s.cluster = cluster ∧ now - since < s.timestamp) ∧
    (∀ (db : List MetricSnapshot) (now : ℤ) (cluster : String) (since : ℤ),
      (GetSnapshots db now cluster since).Pairwise
        fun a b => a.timestamp ≤ b.timestamp) ∧
    (∀ (db : List MetricSnapshot) (now : ℤ) (olderThan : ℤ)
      (s : MetricSnapshot),
      s ∈ CleanupOldSnapshots db now olderThan ↔
        s ∈ db ∧ now - olderThan ≤ s.timestamp) := by
  refine ⟨?_, ?_, ?_⟩
  · intro db now cluster since s
    simp [GetSnapshots, List.mem_filter]
  · intro db now cluster since
    unfold GetSnapshots
    refine List.Pairwise.imp ?_ (List.sorted_mergeSort ?_ ?_ _)
    · intro a b hab
      simpa using hab
    · intro a b c hab hbc
      simp only [decide_eq_true_eq] at *
      omega
    · intro a b
      simp only [Bool.or_eq_true, decide_eq_true_eq]
      omega
  · intro db now olderThan s
    simp [CleanupOldSnapshots, List.mem_filter, not_lt]

/-- C8: resolving an alert id never fails, sets resolved on every row of
that id, and removes it from the active-alerts result set, which contains
exactly the alerts with resolved = false; resolving is idempotent, and
resolving an id that is absent or already resolved leaves the alert table
unchanged. -/
theorem c8_resolve_idempotent_and_active_set :
    (∀ (db : List Alert) (i : ℕ),
      ResolveAlert db i = .ok (resolveUpdate db i)) ∧
    (∀ (db : List Alert) (a : Alert),
      a ∈ GetActiveAlerts db ↔ a ∈ db ∧ a.resolved = false) ∧
    (∀ (db : List Alert) (i : ℕ) (a : Alert),
      a ∈ GetActiveAlerts (resolveUpdate db i) → a.id ≠ i) ∧
    (∀ (db : List Alert) (i : ℕ),
      resolveUpdate (resolveUpdate db i) i = resolveUpdate db i) ∧
    (∀ (db : List Alert) (i : ℕ),
      (∀ a ∈ db, a.id = i → a.resolved = true) → resolveUpdate db i = db) := by
  refine ⟨fun db i => rfl, ?_, ?_, ?_, ?_⟩
  · intro db a
    simp [GetActiveAlerts, List.mem_filter]
  · intro db i a ha
    have hmem : a ∈ resolveUpdate db i ∧ a.resolved = false := by
      simpa [GetActiveAlerts, List.mem_filter] using ha
    obtain ⟨hm, hres⟩ := hmem
    simp only [resolveUpdate] at hm
    obtain ⟨b, hb, heq⟩ := List.mem_map.mp hm
    by_cases hbid : b.id = i
    · rw [if_pos hbid] at heq
      rw [← heq] at hres
      simp at hres
    · rw [if_neg hbid] at heq
      rw [← heq]
      exact hbid
  · intro db i
    simp only [resolveUpdate, List.map_map]
    congr 1
    funext a
    by_cases h : a.id = i <;> simp [h]
  · intro db i
    induction db with
    | nil => intro h; rfl
    | cons a rest ih =>
      intro h
      have hrest := ih fun b hb => h b (List.mem_cons_of_mem a hb)
      simp only [resolveUpdate, List.map_cons] at hrest ⊢
      rw [hrest]
      by_cases hid : a.id = i
      · rw [if_pos hid]
        have hres := h a (List.mem_cons_self a rest) hid
        obtain ⟨ai, ac, asev, am, at_, ares⟩ := a
        simp only at hres
        rw [hres]
      · rw [if_neg hid]

/-- C8 witness: in a table of two unresolved alerts, resolving id 1
leaves alert 2 in the active set and its id differs from 1; resolving an
id whose only row is already resolved leaves the table unchanged; and the
resolve call reports success on an empty table. -/
theorem c8_resolve_witness :
    ((⟨2, "c", "Warning", .podsFailed 2, 6, false⟩ : Alert).id ≠ 1) ∧
    (resolveUpdate [⟨1, "c", "Warning", .podsFailed 1, 5, true⟩] 1 =
      [⟨1, "c", "Warning", .podsFailed 1, 5, true⟩]) ∧
    ResolveAlert ([] : List Alert) 1 = .ok [] := by
  refine ⟨c8_resolve_idempotent_and_active_set.2.2.1
      [⟨1, "c", "Warning", .podsFailed 1, 5, false⟩,
       ⟨2, "c", "Warning", .podsFailed 2, 6, false⟩] 1 _ ?_,
    c8_resolve_idempotent_and_active_set.2.2.2.2
      [⟨1, "c", "Warning", .podsFailed 1, 5, true⟩] 1 ?_,
    c8_resolve_idempotent_and_active_set.1 [] 1⟩
  · simp [GetActiveAlerts, resolveUpdate]
  · intro a ha hid
    rw [List.mem_singleton.mp ha]

/-- C9: per cluster and cycle the threshold check raises at most one CPU
alert and at most one memory alert, Critical above 95 else Warning above
80 with the branches mutually exclusive; whenever failedPods > 0 it
raises exactly one failed-pod alert, always of severity "Warning" and
never "Critical", even though the health-tier rule classifies any failed
pod as Critical. -/
theorem c9_threshold_alert_severities :
    (∀ (cl : String) (cpu mem : ℚ) (f : ℤ),
      (checkAndCreateAlerts cl cpu mem f).filter isCpuAlert =
        (if cpu > 95 then
          [{ cluster := cl, severity := "Critical", message := .cpuCritical cpu }]
         else if cpu > 80 then
          [{ cluster := cl, severity := "Warning", message := .cpuElevated cpu }]
         else [])) ∧
    (∀ (cl : String) (cpu mem : ℚ) (f : ℤ),
      (checkAndCreateAlerts cl cpu mem f).filter isMemAlert =
        (if mem > 95 then
          [{ cluster := cl, severity := "Critical", message := .memCritical mem }]
         else if mem > 80 then
          [{ cluster := cl, severity := "Warning", message := .memElevated mem }]
         else [])) ∧
    (∀ (cl : String) (cpu mem : ℚ) (f : ℤ),
      (checkAndCreateAlerts cl cpu mem f).filter isFailedPodAlert =
        (if f > 0 then
          [{ cluster := cl, severity := "Warning", message := .podsFailed f }]
         else [])) ∧
    (∀ (cl : String) (cpu mem : ℚ) (f : ℤ),
      ((checkAndCreateAlerts cl cpu mem f).filter isCpuAlert).length ≤ 1 ∧
      ((checkAndCreateAlerts cl cpu mem f).filter isMemAlert).length ≤ 1) ∧
    (∀ (cl : String) (cpu mem : ℚ) (f : ℤ) (a : Alert),
      a ∈ checkAndCreateAlerts cl cpu mem f → isFailedPodAlert a = true →
      a.severity = "Warning") ∧
    (∀ (cpu mem : ℚ) (p f : ℤ),
      f > 0 → determineClusterStatus cpu mem p f = "Critical") := by
  have hpodfilter : ∀ (cl : String) (cpu mem : ℚ) (f : ℤ),
      (checkAndCreateAlerts cl cpu mem f).filter isFailedPodAlert =
        (if f > 0 then
          [{ cluster := cl, severity := "Warning", message := .podsFailed f }]
         else []) := by
    intro cl cpu mem f
    simp only [checkAndCreateAlerts, List.filter_append]
    split_ifs <;> simp [isCpuAlert, isMemAlert, isFailedPodAlert]
  refine ⟨?_, ?_, hpodfilter, ?_, ?_, ?_⟩
  · intro cl cpu mem f
    simp only [checkAndCreateAlerts, List.filter_append]
    split_ifs <;> simp [isCpuAlert, isMemAlert, isFailedPodAlert]
  · intro cl cpu mem f
    simp only [checkAndCreateAlerts, List.filter_append]
    split_ifs <;> simp [isCpuAlert, isMemAlert, isFailedPodAlert]
  · intro cl cpu mem f
    constructor <;>
      (simp only [checkAndCreateAlerts, List.filter_append]
       split_ifs <;> simp [isCpuAlert, isMemAlert, isFailedPodAlert])
  · intro cl cpu mem f a ha hfp
    have hmem : a ∈ (checkAndCreateAlerts cl cpu mem f).filter isFailedPodAlert :=
      List.mem_filter.mpr ⟨ha, hfp⟩
    rw [hpodfilter] at hmem
    split_ifs at hmem with h5
    · rw [List.mem_singleton.mp hmem]
    · simp at hmem
  · intro cpu mem p f hf
    unfold determineClusterStatus
    rw [if_pos (Or.inr (Or.inr hf))]

/-- C9 witness: with CPU 97, memory 85 and two failed pods the cycle
produces one Critical CPU alert, one Warning memory alert and one Warning
failed-pod alert; the failed-pod alert in that list has severity
"Warning" while the health tier for any failed pod is Critical. -/
theorem c9_threshold_alert_witness :
    ((checkAndCreateAlerts "x" 97 85 2).filter isFailedPodAlert =
      [{ cluster := "x", severity := "Warning", message := .podsFailed 2 }]) ∧
    ((⟨0, "x", "Warning", .podsFailed 2, 0, false⟩ : Alert).severity =
      "Warning") ∧
    determineClusterStatus 10 10 0 2 = "Critical" := by
  refine ⟨(c9_threshold_alert_severities.2.2.1 "x" 97 85 2).trans
      (if_pos (by norm_num)),
    c9_threshold_alert_severities.2.2.2.2.1 "x" 97 85 2 _ ?_ rfl,
    c9_threshold_alert_severities.2.2.2.2.2 10 10 0 2 (by norm_num)⟩
  have h := (c9_threshold_alert_severities.2.2.1 "x" 97 85 2).trans
    (if_pos (by norm_num : (2 : ℤ) > 0))
  have : (⟨0, "x", "Warning", .podsFailed 2, 0, false⟩ : Alert) ∈
      (checkAndCreateAlerts "x" 97 85 2).filter isFailedPodAlert := by
    rw [h]
    exact List.mem_singleton.mpr rfl
  exact (List.mem_filter.mp this).1

/-- C10: the pod summary counts pods of phase other than Running, Pending
or Failed in the total only, so running + pending + failed ≤ total, the
total is the number of pods, and equality holds exactly when every pod
phase is Running, Pending or Failed. -/
theorem c10_pod_summary_total_bound :
    ∀ phases : List String,
      (GetPodSummary phases).1 + (GetPodSummary phases).2.1 +
          (GetPodSummary phases).2.2.1 ≤ (GetPodSummary phases).2.2.2 ∧
      (GetPodSummary phases).2.2.2 = (phases.length : ℤ) ∧
      ((GetPodSummary phases).1 + (GetPodSummary phases).2.1 +
            (GetPodSummary phases).2.2.1 = (GetPodSummary phases).2.2.2 ↔
        ∀ st ∈ phases, st = "Running" ∨ st = "Pending" ∨ st = "Failed") := by
  intro phases
  induction phases with
  | nil => simp [GetPodSummary]
  | cons st rest ih =>
    obtain ⟨ih1, ihlen, ih2⟩ := ih
    rcases hprev : GetPodSummary rest with ⟨r, p, fl, t⟩
    rw [hprev] at ih1 ihlen ih2
    dsimp only at ih1 ihlen ih2
    by_cases hR : st = "Running"
    · subst hR
      have hcons : GetPodSummary ("Running" :: rest) = (r + 1, p, fl, t + 1) := by
        simp [GetPodSummary, hprev]
      rw [hcons]
      dsimp only
      refine ⟨by omega, ?_, ?_⟩
      · rw [List.length_cons]
        push_cast
        omega
      · rw [List.forall_mem_cons]
        constructor
        · intro h
          exact ⟨Or.inl rfl, ih2.mp (by omega)⟩
        · rintro ⟨-, h2⟩
          have := ih2.mpr h2
          omega
    · by_cases hP : st = "Pending"
      · subst hP
        have hcons : GetPodSummary ("Pending" :: rest) = (r, p + 1, fl, t + 1) := by
          simp [GetPodSummary, hprev]
        rw [hcons]
        dsimp only
        refine ⟨by omega, ?_, ?_⟩
        · rw [List.length_cons]
          push_cast
          omega
        · rw [List.forall_mem_cons]
          constructor
          · intro h
            exact ⟨Or.inr (Or.inl rfl), ih2.mp (by omega)⟩
          · rintro ⟨-, h2⟩
            have := ih2.mpr h2
            omega
      · by_cases hF : st = "Failed"
        · subst hF
          have hcons : GetPodSummary ("Failed" :: rest) = (r, p, fl + 1, t + 1) := by
            simp [GetPodSummary, hprev]
          rw [hcons]
          dsimp only
          refine ⟨by omega, ?_, ?_⟩
          · rw [List.length_cons]
            push_cast
            omega
          · rw [List.forall_mem_cons]
            constructor
            · intro h
              exact ⟨Or.inr (Or.inr rfl), ih2.mp (by omega)⟩
            · rintro ⟨-, h2⟩
              have := ih2.mpr h2
              omega
        · have hcons : GetPodSummary (st :: rest) = (r, p, fl, t + 1) := by
            simp [GetPodSummary, hprev, hR, hP, hF]
          rw [hcons]
          dsimp only
          refine ⟨by omega, ?_, ?_⟩
          · rw [List.length_cons]
            push_cast
            omega
          · rw [List.forall_mem_cons]
            constructor
            · intro h
              exfalso
              omega
            · rintro ⟨h1, -⟩
              rcases h1 with h | h | h
              exacts [absurd h hR, absurd h hP, absurd h hF]


/-- C1 witness: the Critical characterization applied at
cpu = 96, mem = 0, pending = 0, failed = 0. -/
theorem c1_health_classifier_witness :
    determineClusterStatus 96 0 0 0 = "Critical" :=
  (c1_health_classifier.1 96 0 0 0).1.mpr (Or.inl (by norm_num))

/-- C3 witness for the amended statement: a failed configuration load
with a healthy store yields a running process without the Kubernetes
service. -/
theorem c3_startup_fatality_witness :
    startup true false true = .running false :=
  (c3_startup_fatality_amended.1 false true).trans rfl

/-- C4 witness for the amended statement: one nanosecond past 24 hours
falls in the days bucket. -/
theorem c4_age_bucketing_witness :
    formatAge 86400000000001 = "1d" :=
  (c4_age_bucketing_amended.1 86400000000001).trans (by decide)

/-- C7 witness: a snapshot of cluster "c" at time 90 is returned by a
range query at now = 100 over the last 50 ticks, and survives pruning
with cutoff exactly at its timestamp (now = 100, window 10). -/
theorem c7_snapshot_range_witness :
    (⟨0, "c", 0, 0, 0, 0, 90⟩ : MetricSnapshot) ∈
      GetSnapshots [⟨0, "c", 0, 0, 0, 0, 90⟩] 100 "c" 50 ∧
    (⟨0, "c", 0, 0, 0, 0, 90⟩ : MetricSnapshot) ∈
      CleanupOldSnapshots [⟨0, "c", 0, 0, 0, 0, 90⟩] 100 10 :=
  ⟨(c7_snapshot_range_and_prune.1 _ 100 "c" 50 _).mpr
      ⟨List.mem_singleton.mpr rfl, rfl, by decide⟩,
   (c7_snapshot_range_and_prune.2.2 _ 100 10 _).mpr
      ⟨List.mem_singleton.mpr rfl, by decide⟩⟩

/-- C10 witness: over phases [Running, Succeeded] the counted sum is
bounded by the total, and over [Running, Pending, Failed] the equality
case of the iff applies since every phase is one of the three counted
ones. -/
theorem c10_pod_summary_witness :
    ((GetPodSummary ["Running", "Succeeded"]).1 +
        (GetPodSummary ["Running", "Succeeded"]).2.1 +
        (GetPodSummary ["Running", "Succeeded"]).2.2.1 ≤
      (GetPodSummary ["Running", "Succeeded"]).2.2.2) ∧
    ((GetPodSummary ["Running", "Pending", "Failed"]).1 +
        (GetPodSummary ["Running", "Pending", "Failed"]).2.1 +
        (GetPodSummary ["Running", "Pending", "Failed"]).2.2.1 =
      (GetPodSummary ["Running", "Pending", "Failed"]).2.2.2) :=
  ⟨(c10_pod_summary_total_bound ["Running", "Succeeded"]).1,
   (c10_pod_summary_total_bound ["Running", "Pending", "Failed"]).2.2.mpr
      (by decide)⟩

end KDash
